import Mathlib

/-
  Verification development for the break-and-retest trading system.

  The definitions below are a shallow embedding of the Python sources:
  prices and balances are rationals, timestamps are integers (minutes),
  per-day replay loops become folds of a per-bar step function over a
  list of bar inputs.  Dictionary truthiness in the Python source
  (a value of 0.0 or None is falsy) is modelled explicitly where the
  source relies on it.
-/

set_option maxHeartbeats 1000000

/-- Trade direction, the BUY and SELL strings of the source. -/
inductive Side where
  | buy
  | sell
deriving DecidableEq, Repr

/-- Break direction, the up and down strings of the source. -/
inductive BreakDir where
  | up
  | down
deriving DecidableEq, Repr

/-- Names of the four reference levels (level_calculator.py keys). -/
inductive LName where
  | pdh
  | pdl
  | pmh
  | pml
deriving DecidableEq, Repr

/-- States of the per-symbol trade state machine (string states of the drivers). -/
inductive FSMState where
  | awaitingBreak
  | awaitingRetest
  | awaitingConfirmation
  | inTrade
deriving DecidableEq, Repr

/-- Confluence tag returned by RetestDetector.check_for_retest:
STATIC or 13_EMA_DIP. -/
inductive ConfTag where
  | staticLevel
  | emaDip13
deriving DecidableEq, Repr

/-- Status field of a trade dictionary: ACTIVE or CLOSED. -/
inductive TradeStatus where
  | active
  | closed
deriving DecidableEq, Repr

/-- Exit reasons: SL/STOP_LOSS, TP/TAKE_PROFIT and EOD across the two drivers. -/
inductive ExitReason where
  | stopLoss
  | takeProfit
  | eod
deriving DecidableEq, Repr

/-- WIN or LOSS result recorded on a closed trade. -/
inductive TradeResult where
  | win
  | loss
deriving DecidableEq, Repr

/-- One OHLCV bar; name is the pandas index timestamp, in minutes. -/
structure Bar where
  name : ℤ
  opn : ℚ
  high : ℚ
  low : ℚ
  close : ℚ
  volume : ℚ
deriving DecidableEq, Repr

/-- The level dictionary produced by LevelCalculator.calculate_all_levels:
exactly the four optional prices pdh, pdl, pmh, pml. -/
structure Levels where
  pdh : Option ℚ
  pdl : Option ℚ
  pmh : Option ℚ
  pml : Option ℚ
deriving DecidableEq, Repr

/-- The all-None level dictionary. -/
def emptyLevels : Levels := ⟨none, none, none, none⟩

/-- The latest_emas dictionary consumed by the detectors. -/
structure EmaMap where
  ema13 : Option ℚ
  ema48 : Option ℚ
  ema200 : Option ℚ
deriving DecidableEq, Repr

/-- Internal state of BreakDetector (break_detector.py): the two
consecutive-close confirmation counters, the direction last counted,
and the previous-bar memory. -/
structure BDState where
  breakAboveConfirmations : ℕ
  breakBelowConfirmations : ℕ
  lastBreakType : Option BreakDir
  previousBar : Option Bar
deriving DecidableEq, Repr

/-- BreakDetector.reset: zero counters, clear direction and memory. -/
def bdReset : BDState := ⟨0, 0, none, none⟩

/-- A fresh BreakDetector state (the constructor initialises all fields like reset). -/
def bdInit : BDState := bdReset

/-- The break event dictionary built by check_for_break
(break_detector.py lines 70 and 77): keys type, level_name, level_value, candle. -/
structure BreakEvent where
  dir : BreakDir
  levelName : LName
  levelValue : ℚ
  candle : Bar
deriving DecidableEq, Repr

/-- Python dict.get of the absent key immediate_entry on a break event:
check_for_break only ever builds events with the four keys above, so the
lookup yields None, which is falsy. -/
def immediateEntryFlag (_ : BreakEvent) : Bool := false

/-- Python dict.get of the absent key high_conviction on a break event:
as with immediate_entry, the key is never written, so the lookup is falsy. -/
def highConvictionFlag (_ : BreakEvent) : Bool := false

/-- The support sub-dictionary of check_for_break: entries of the levels
argument named pdl or pml, skipping None values, in key order. -/
def supportPairs (lv : Levels) : List (LName × ℚ) :=
  (match lv.pdl with | some v => [(LName.pdl, v)] | none => []) ++
  (match lv.pml with | some v => [(LName.pml, v)] | none => [])

/-- The resistance sub-dictionary of check_for_break: entries named pdh or pmh. -/
def resistPairs (lv : Levels) : List (LName × ℚ) :=
  (match lv.pdh with | some v => [(LName.pdh, v)] | none => []) ++
  (match lv.pmh with | some v => [(LName.pmh, v)] | none => [])

/-- Python min over a dict with a value key function: the first entry,
in iteration order, attaining the minimal value; none on the empty dict
(where Python would raise). -/
def minValPair : List (LName × ℚ) → Option (LName × ℚ) :=
  List.foldl
    (fun acc p =>
      match acc with
      | none => some p
      | some q => if p.2 < q.2 then some p else some q)
    none

/-- Python max over a dict with a value key function, first maximal entry. -/
def maxValPair : List (LName × ℚ) → Option (LName × ℚ) :=
  List.foldl
    (fun acc p =>
      match acc with
      | none => some p
      | some q => if p.2 > q.2 then some p else some q)
    none

/-- BreakDetector.check_for_break (break_detector.py lines 23-83).
The confirmation-candle count is the constructor argument read from
strategy_config.BREAK_CONFIRMATION_CANDLES; the ema_200 value is the
entry of the latest_emas argument (a value of 0.0 is falsy in the
source's truthiness test).  Returns the optional break event together
with the updated detector state. -/
def checkForBreak (confirmationCandles : ℕ) (st : BDState) (latestBar : Bar)
    (levels : Levels) (ema200 : Option ℚ) : Option BreakEvent × BDState :=
  let closePrice := latestBar.close
  let supportLevels := supportPairs levels
  let resistanceLevels := resistPairs levels
  -- is_breaking_above: close above the lowest resistance (false when no resistance)
  let isBreakingAbove : Bool :=
    match minValPair resistanceLevels with
    | some p => decide (closePrice > p.2)
    | none => false
  -- is_breaking_below: close below the highest support (false when no support)
  let isBreakingBelow : Bool :=
    match maxValPair supportLevels with
    | some p => decide (closePrice < p.2)
    | none => false
  -- counter update phase
  let st1 : BDState :=
    if isBreakingAbove then
      let st0 := if st.lastBreakType = some BreakDir.up then st else bdReset
      { st0 with lastBreakType := some BreakDir.up,
                 breakAboveConfirmations := st0.breakAboveConfirmations + 1 }
    else if isBreakingBelow then
      let st0 := if st.lastBreakType = some BreakDir.down then st else bdReset
      { st0 with lastBreakType := some BreakDir.down,
                 breakBelowConfirmations := st0.breakBelowConfirmations + 1 }
    else if st.breakAboveConfirmations > 0 || st.breakBelowConfirmations > 0 then
      bdReset
    else st
  -- ema_200 truthiness and direction filters
  let emaUpOk : Bool :=
    match ema200 with
    | some v => decide (v ≠ 0) && decide (closePrice > v)
    | none => false
  let emaDownOk : Bool :=
    match ema200 with
    | some v => decide (v ≠ 0) && decide (closePrice < v)
    | none => false
  if decide (st1.breakAboveConfirmations ≥ confirmationCandles) && emaUpOk then
    match minValPair resistanceLevels with
    | some p => (some ⟨BreakDir.up, p.1, p.2, latestBar⟩, bdReset)
    | none => (none, { st1 with previousBar := some latestBar })
      -- unreachable when the counter is positive: counting above requires a resistance
  else if decide (st1.breakBelowConfirmations ≥ confirmationCandles) && emaDownOk then
    match maxValPair supportLevels with
    | some p => (some ⟨BreakDir.down, p.1, p.2, latestBar⟩, bdReset)
    | none => (none, { st1 with previousBar := some latestBar })
  else
    (none, { st1 with previousBar := some latestBar })

/-- RetestDetector.check_for_retest (retest_detector.py lines 12-79).
The per-symbol tolerances and the two strategy flags are the values the
constructor reads from strategy_config; latest_emas supplies the EMA
entries (a 0.0 entry is falsy in the source's truthiness tests).
Returns (pivot_candle, rejection_candle, confluence_type) on success:
the source always returns the same bar for both candles together with a
non-None tag, so the triple is collapsed into one optional value. -/
def checkForRetest (tolerance emaTol13 : ℚ) (allowEmaDipBuys requireEmaStack : Bool)
    (latestBar : Bar) (brokenLevelPrice : ℚ) (breakDirection : BreakDir)
    (emas : EmaMap) : Option (Bar × Bar × ConfTag) :=
  let retestZoneUpper := brokenLevelPrice + tolerance
  let retestZoneLower := brokenLevelPrice - tolerance
  let candleMidpoint := (latestBar.high + latestBar.low) / 2
  let wickTouchedStaticLevel : Bool :=
    match breakDirection with
    | BreakDir.up =>
        decide (latestBar.low ≤ retestZoneUpper) && decide (latestBar.low ≥ retestZoneLower)
    | BreakDir.down =>
        decide (latestBar.high ≥ retestZoneLower) && decide (latestBar.high ≤ retestZoneUpper)
  let isRejectionCandle : Bool :=
    match breakDirection with
    | BreakDir.up => decide (latestBar.close ≥ candleMidpoint)
    | BreakDir.down => decide (latestBar.close ≤ candleMidpoint)
  if wickTouchedStaticLevel && isRejectionCandle then
    some (latestBar, latestBar, ConfTag.staticLevel)
  else if allowEmaDipBuys then
    match emas.ema13 with
    | some ema13 =>
      if ema13 = 0 then none
      else
        let priceOnCorrectSide : Bool :=
          match breakDirection with
          | BreakDir.up => decide (latestBar.close > brokenLevelPrice)
          | BreakDir.down => decide (latestBar.close < brokenLevelPrice)
        let wickTouchedEma : Bool :=
          match breakDirection with
          | BreakDir.up => decide (latestBar.low ≤ ema13 + emaTol13)
          | BreakDir.down => decide (latestBar.high ≥ ema13 - emaTol13)
        if priceOnCorrectSide && wickTouchedEma && isRejectionCandle then
          if requireEmaStack then
            match emas.ema48, emas.ema200 with
            | some ema48, some ema200 =>
              if ema48 = 0 || ema200 = 0 then none
              else
                let isBullishStack : Bool :=
                  decide (latestBar.close > ema13) && decide (ema13 > ema48) &&
                    decide (ema48 > ema200)
                let isBearishStack : Bool :=
                  decide (latestBar.close < ema13) && decide (ema13 < ema48) &&
                    decide (ema48 < ema200)
                if (match breakDirection with
                    | BreakDir.up => !isBullishStack
                    | BreakDir.down => !isBearishStack) then none
                else some (latestBar, latestBar, ConfTag.emaDip13)
            | _, _ => none
          else some (latestBar, latestBar, ConfTag.emaDip13)
        else none
    | none => none
  else none

/-- Reasons returned by PatternValidator.validate_signal; the source
returns free-text strings, collapsed here to one tag per return site. -/
inductive VerdictReason where
  | lowVolume
  | tooCloseToLevel
  | notBullish
  | notBearish
  | ok
deriving DecidableEq, Repr

/-- The level dictionary in iteration order pdh, pdl, pmh, pml with
None values skipped, as produced by dict.items() in the source. -/
def levelPairs (lv : Levels) : List (LName × ℚ) :=
  (match lv.pdh with | some v => [(LName.pdh, v)] | none => []) ++
  (match lv.pdl with | some v => [(LName.pdl, v)] | none => []) ++
  (match lv.pmh with | some v => [(LName.pmh, v)] | none => []) ++
  (match lv.pml with | some v => [(LName.pml, v)] | none => [])

/-- PatternValidator._check_level_confluence (pattern_validator.py lines 69-100):
true when the entry is conflictingly close to another level on the trade side. -/
def checkLevelConfluence (signalDirection : Side) (entryPrice : ℚ)
    (levels : Levels) (minDist : ℚ) : Bool :=
  (levelPairs levels).any fun p =>
    match signalDirection with
    | Side.buy => decide (entryPrice < p.2) && decide (|entryPrice - p.2| < minDist)
    | Side.sell => decide (entryPrice > p.2) && decide (|entryPrice - p.2| < minDist)

/-- PatternValidator.validate_signal (pattern_validator.py lines 18-67).
minVolume and minDist are the per-symbol map lookups of the constructor;
the breakout and confirmation candles are always supplied by the drivers,
so the missing-context early return is not representable. -/
def validateSignal (minVolume minDist : ℚ) (signalDirection : Side)
    (breakoutCandle confirmationCandle : Bar) (levels : Levels) :
    Bool × VerdictReason :=
  if breakoutCandle.volume < minVolume then (false, VerdictReason.lowVolume)
  else if checkLevelConfluence signalDirection confirmationCandle.close levels minDist then
    (false, VerdictReason.tooCloseToLevel)
  else
    match signalDirection with
    | Side.buy =>
        if confirmationCandle.close ≤ confirmationCandle.opn then
          (false, VerdictReason.notBullish)
        else (true, VerdictReason.ok)
    | Side.sell =>
        if confirmationCandle.close ≥ confirmationCandle.opn then
          (false, VerdictReason.notBearish)
        else (true, VerdictReason.ok)

/-- risk_config.STOP_LOSS_BUFFER_POINTS, the per-symbol stop buffer map. -/
def stopLossBufferPoints : String → Option ℚ := fun s =>
  if s = "MNQ" then some 25
  else if s = "MES" then some 3
  else if s = "M2K" then some (15 / 2)
  else none

/-- StopLossManager.calculate_stop_from_candle (stop_loss_manager.py lines 5-31):
stop below the pivot low for BUY, above the pivot high for SELL; None when the
pivot candle is missing or the symbol has no configured buffer. -/
def calculateStopFromCandle (signalDirection : Side) (pivotCandle : Option Bar)
    (symbol : String) : Option ℚ :=
  match pivotCandle with
  | none => none
  | some p =>
    match stopLossBufferPoints symbol with
    | none => none
    | some buffer =>
      match signalDirection with
      | Side.buy => some (p.low - buffer)
      | Side.sell => some (p.high + buffer)

/-- risk_config.TAKE_PROFIT_RRR, the configured reward-to-risk ratio. -/
def takeProfitRRR : ℚ := 2

/-- TakeProfitManager.set_profit_target (take_profit_manager.py lines 5-12):
the target sits a hardcoded 2 risk distances beyond the entry. -/
def setProfitTarget (entryPrice stopLossPrice : ℚ) (signalDirection : Side) : ℚ :=
  let riskAmount := |entryPrice - stopLossPrice|
  match signalDirection with
  | Side.buy => entryPrice + riskAmount * 2
  | Side.sell => entryPrice - riskAmount * 2

/-- market_config.DOLLAR_PER_POINT. -/
def dollarPerPoint : String → Option ℚ := fun s =>
  if s = "MNQ" then some 2
  else if s = "MES" then some 5
  else if s = "M2K" then some 5
  else none

/-- risk_config.RISK_DOLLAR_AMOUNT (present, so it overrides RISK_PER_TRADE). -/
def riskDollarAmount : Option ℚ := some 250

/-- risk_config.RISK_PER_TRADE. -/
def riskPerTrade : ℚ := 1 / 100

/-- risk_config.MAX_POSITION_SIZE. -/
def maxPositionSize : ℤ := 10

/-- risk_config.HIGH_CONVICTION_RISK_MULTIPLIER. -/
def highConvictionRiskMultiplier : ℚ := 3 / 2

/-- PositionSizer.calculate_size (position_sizer.py lines 9-64): fixed-fractional
sizing, floored and clamped to MAX_POSITION_SIZE, with the zero-distance and
unknown-symbol early returns of the source. -/
def calculateSize (accountBalance entryPrice stopLossPrice : ℚ) (symbol : String)
    (isHighConviction : Bool) : ℤ :=
  match dollarPerPoint symbol with
  | none => 0
  | some valuePerPoint =>
    let stopLossPoints := |entryPrice - stopLossPrice|
    if stopLossPoints = 0 then 0
    else
      let riskPerContract := stopLossPoints * valuePerPoint
      let baseRisk :=
        match riskDollarAmount with
        | some amt => amt
        | none => accountBalance * riskPerTrade
      let totalRiskAmount :=
        if isHighConviction then baseRisk * highConvictionRiskMultiplier else baseRisk
      if riskPerContract = 0 then 0
      else
        let positionSize := totalRiskAmount / riskPerContract
        let finalSize := ⌊positionSize⌋
        if finalSize > maxPositionSize then maxPositionSize else finalSize

/-- A bar for the level calculator: in the source, calculate_all_levels
converts the index to exchange time and filters by calendar date and
time of day, so a bar carries its exchange-local day and second-of-day
together with the price fields the calculator reads. -/
structure LCBar where
  day : ℤ
  sec : ℤ
  high : ℚ
  low : ℚ
deriving DecidableEq, Repr

/-- First maximum of a list, none when empty. -/
def listMax? {α : Type} [LinearOrder α] : List α → Option α
  | [] => none
  | x :: xs => some (xs.foldl max x)

/-- First minimum of a list, none when empty. -/
def listMin? {α : Type} [LinearOrder α] : List α → Option α
  | [] => none
  | x :: xs => some (xs.foldl min x)

/-- Regular trading hours window 09:30:00 to 16:00:00 inclusive
(level_calculator.py lines 59-61), in seconds of the exchange day. -/
def inRTHsec (s : ℤ) : Bool := decide (34200 ≤ s) && decide (s ≤ 57600)

/-- Pre-market window 04:00:00 to 09:29:59 inclusive
(level_calculator.py lines 78-80). -/
def inPMsec (s : ℤ) : Bool := decide (14400 ≤ s) && decide (s ≤ 33599)

/-- A bar usable for PDH/PDL: on a day strictly before the simulation day,
inside regular hours, with a positive low (level_calculator.py line 64). -/
def isValidRTHBar (simDay : ℤ) (b : LCBar) : Bool :=
  decide (b.day < simDay) && inRTHsec b.sec && decide (0 < b.low)

/-- A bar usable for PMH/PML: on the simulation day, inside the pre-market
window, with a positive low (level_calculator.py line 83). -/
def isValidPMBar (simDay : ℤ) (b : LCBar) : Bool :=
  decide (b.day = simDay) && inPMsec b.sec && decide (0 < b.low)

/-- LevelCalculator.calculate_all_levels (level_calculator.py lines 9-95).
PDH/PDL come from the most recent past day that has a valid regular-hours
bar (the source walks candidate dates newest first and stops at the first
hit, which is exactly the maximal such day); PMH/PML come from the current
day's pre-market bars.  Every guard failure leaves the corresponding
fields None; the function is total and never raises. -/
def calculateAllLevels (bars : List LCBar) (simDay : ℤ) : Levels :=
  let pastValid := bars.filter (isValidRTHBar simDay)
  let previousTradingDay? := listMax? (pastValid.map (fun b => b.day))
  let pdhpdl : Option ℚ × Option ℚ :=
    match previousTradingDay? with
    | none => (none, none)
    | some d =>
      let dayValid := bars.filter
        (fun b => decide (b.day = d) && inRTHsec b.sec && decide (0 < b.low))
      (listMax? (dayValid.map (fun b => b.high)), listMin? (dayValid.map (fun b => b.low)))
  let pmValid := bars.filter (isValidPMBar simDay)
  { pdh := pdhpdl.1
    pdl := pdhpdl.2
    pmh := listMax? (pmValid.map (fun b => b.high))
    pml := listMin? (pmValid.map (fun b => b.low)) }

/-- The per-symbol trade dictionary built at entry and completed at exit.
Optional fields are the keys that trade.update adds when the trade closes
(None-valued here while the trade is still open); retestedLevel and
timeAtRetest are keys only some entry sites write. -/
structure Trade where
  entryTime : ℤ
  entryPrice : ℚ
  side : Side
  stopLoss : ℚ
  takeProfit : ℚ
  quantity : ℤ
  status : TradeStatus
  levelsInfo : Levels
  levelBroken : LName
  retestedLevel : Option ℚ
  timeAtBreak : ℤ
  timeAtRetest : Option ℤ
  exitTime : Option ℤ
  exitPrice : Option ℚ
  exitReason : Option ExitReason
  pnlPoints : Option ℚ
  pnlDollars : Option ℚ
  result : Option TradeResult
deriving DecidableEq, Repr

/-- The last_break_event dictionary stored by the drivers: the break event
merged with the level and upper-cased name keys. -/
structure StoredBreak where
  dir : BreakDir
  levelName : LName
  level : ℚ
  candle : Bar
deriving DecidableEq, Repr

/-- The retest_context dictionary stored between retest and confirmation. -/
structure RContext where
  breakEvent : StoredBreak
  pivotCandle : Bar
  rejectionCandle : Bar
  confluenceType : Option ConfTag
deriving DecidableEq, Repr

/-- Per-symbol configuration resolved at driver start.  All fields except
the last two are the values of src/config/strategy_config.py for the
symbol.  minDistanceFromLevel and maxEntrySlippagePoints are read by
pattern_validator.py line 16 and backtester.py line 292 but are absent
from src/config/strategy_config.py; they are kept as parameters here.
Modelled from the spec: per-symbol required configuration values
minDistanceFromLevel and maxSlippagePoints (spec section 6). -/
structure SymCfg where
  symbol : String
  confirmationCandles : ℕ
  retestTimeoutMinutes : ℤ
  retestTolerance : ℚ
  emaTol13 : ℚ
  allowEmaDipBuys : Bool
  requireEmaStack : Bool
  minBreakoutVolume : ℚ
  minDistanceFromLevel : ℚ
  maxEntrySlippagePoints : ℚ
deriving DecidableEq, Repr

/-- One dispatched bar: the bar itself, its exchange-local minute of day
(for the session windows), and the EMA values available at that bar.
The Python call sites in both backtesters omit the latest_emas argument
that the src detectors require; the embedding threads it explicitly. -/
structure BarInput where
  bar : Bar
  tod : ℤ
  emas : EmaMap
deriving DecidableEq, Repr

/-- strategy_config.MORNING_SESSION_START, 09:30, as a minute of day. -/
def morningStartMin : ℤ := 570

/-- strategy_config.MORNING_SESSION_END, 11:00, as a minute of day. -/
def morningEndMin : ℤ := 660

/-- The inclusive morning-session test of both drivers. -/
def isMorningTime (tod : ℤ) : Bool :=
  decide (morningStartMin ≤ tod) && decide (tod ≤ morningEndMin)

/-- True when the level dictionary is empty (all values filtered out). -/
def levelsEmpty (lv : Levels) : Bool :=
  lv.pdh.isNone && lv.pdl.isNone && lv.pmh.isNone && lv.pml.isNone

/-- Insert a named level into the active-levels dictionary. -/
def setLevel (lv : Levels) (nm : LName) (v : ℚ) : Levels :=
  match nm with
  | LName.pdh => { lv with pdh := some v }
  | LName.pdl => { lv with pdl := some v }
  | LName.pmh => { lv with pmh := some v }
  | LName.pml => { lv with pml := some v }

/-- The fallback active-level selection of backtester.py lines 204-208:
the nearest support and nearest resistance, each looked up by scanning
key_levels for the first key carrying the extremal value. -/
def fallbackNearest (lv : Levels) (currentPrice : ℚ) : Levels :=
  let keyPairs := levelPairs lv
  let support := keyPairs.filter (fun p => decide (p.2 < currentPrice))
  let resist := keyPairs.filter (fun p => decide (p.2 > currentPrice))
  let withSupport :=
    match listMax? (support.map (fun p => p.2)) with
    | some mv =>
      match keyPairs.find? (fun p => p.2 == mv) with
      | some q => setLevel emptyLevels q.1 mv
      | none => emptyLevels
    | none => emptyLevels
  match listMin? (resist.map (fun p => p.2)) with
  | some mv =>
    match keyPairs.find? (fun p => p.2 == mv) with
    | some q => setLevel withSupport q.1 mv
    | none => withSupport
  | none => withSupport

/-- The morning pre-market-range selection of backtester.py lines 186-209
(identically backtester_projectx.py lines 245-256): watch PMH/PML while
price is inside the pre-market range, else the nearer one; the source
guards with Python truthiness, so a 0.0 level disables the branch.
Returns the empty dictionary when the branch does not apply. -/
def premarketChannel (isMorning : Bool) (lv : Levels) (currentPrice : ℚ) : Levels :=
  if isMorning then
    match lv.pmh, lv.pml with
    | some vh, some vl =>
      if vh = 0 || vl = 0 then emptyLevels
      else if decide (currentPrice < vh) && decide (currentPrice > vl) then
        { pdh := none, pdl := none, pmh := some vh, pml := some vl }
      else if decide (currentPrice > vh) then
        { pdh := none, pdl := none, pmh := some vh, pml := none }
      else if decide (currentPrice < vl) then
        { pdh := none, pdl := none, pmh := none, pml := some vl }
      else emptyLevels
    | _, _ => emptyLevels
  else emptyLevels

/-- Driver state for one symbol: the symbol_states entry of either
backtester, together with the account balance and the recorded-trades
list those drivers keep on the instance. -/
structure DrvState where
  fsm : FSMState
  det : BDState
  lastBreakEvent : Option StoredBreak
  retestTimeoutStamp : ℤ
  retestContext : Option RContext
  activeTrade : Option Trade
  levels : Levels
  tradeTaken : Bool
  lastTradeOutcome : Option TradeResult
  balance : ℚ
  trades : List Trade
deriving DecidableEq, Repr

/-- The freshly initialised per-symbol state of both drivers. -/
def initState (balance : ℚ) (lv : Levels) : DrvState :=
  { fsm := FSMState.awaitingBreak
    det := bdInit
    lastBreakEvent := none
    retestTimeoutStamp := 0
    retestContext := none
    activeTrade := none
    levels := lv
    tradeTaken := false
    lastTradeOutcome := none
    balance := balance
    trades := [] }

/-- Backtester.close_trade (backtester.py lines 339-356): exit price is the
take profit or stop loss for TP/SL and the initial 0 for any other reason;
the dollar-per-point lookup is the direct dict access of line 347. -/
def closeTradeA (cfg : SymCfg) (s : DrvState) (t : Trade) (exitBar : Bar)
    (reason : ExitReason) : DrvState :=
  let exitPrice : ℚ :=
    match reason with
    | ExitReason.takeProfit => t.takeProfit
    | ExitReason.stopLoss => t.stopLoss
    | ExitReason.eod => 0
  let pnl : ℚ :=
    match t.side with
    | Side.buy => exitPrice - t.entryPrice
    | Side.sell => t.entryPrice - exitPrice
  let pnlDollars := pnl * ((dollarPerPoint cfg.symbol).getD 0) * (t.quantity : ℚ)
  let result := if pnlDollars > 0 then TradeResult.win else TradeResult.loss
  let t2 := { t with
    exitTime := some exitBar.name
    exitPrice := some exitPrice
    exitReason := some reason
    status := TradeStatus.closed
    pnlDollars := some pnlDollars
    result := some result }
  { s with
    balance := s.balance + pnlDollars
    trades := s.trades ++ [t2]
    lastTradeOutcome := some result
    activeTrade := none
    fsm := FSMState.awaitingBreak }

/-- One bar of Backtester.run_day_simulation (backtester.py lines 158-335)
for one symbol: the per-bar state-machine dispatch, including the session
gate that skips every non-morning bar. -/
def stepA (cfg : SymCfg) (s : DrvState) (inp : BarInput) : DrvState :=
  if !(isMorningTime inp.tod) then s
  else
    match s.fsm with
    | FSMState.awaitingBreak =>
      let currentPrice := inp.bar.close
      let chan := premarketChannel true s.levels currentPrice
      let activeLevels := if levelsEmpty chan then fallbackNearest s.levels currentPrice else chan
      if levelsEmpty activeLevels then s
      else
        let res := checkForBreak cfg.confirmationCandles s.det inp.bar activeLevels inp.emas.ema200
        match res.1 with
        | none => { s with det := res.2 }
        | some ev =>
          { s with
            det := res.2
            fsm := FSMState.awaitingRetest
            lastBreakEvent := some ⟨ev.dir, ev.levelName, ev.levelValue, ev.candle⟩
            retestTimeoutStamp := inp.bar.name + cfg.retestTimeoutMinutes }
    | FSMState.awaitingRetest =>
      if inp.bar.name > s.retestTimeoutStamp then
        { s with fsm := FSMState.awaitingBreak }
      else
        match s.lastBreakEvent with
        | none => s -- the source would raise a KeyError here; unreachable in a run
        | some be =>
          match checkForRetest cfg.retestTolerance cfg.emaTol13 cfg.allowEmaDipBuys
              cfg.requireEmaStack inp.bar be.level be.dir inp.emas with
          | none => s
          | some pr =>
            { s with
              fsm := FSMState.awaitingConfirmation
              retestContext := some ⟨be, pr.1, pr.2.1, some pr.2.2⟩ }
    | FSMState.awaitingConfirmation =>
      match s.retestContext with
      | none => { s with fsm := FSMState.awaitingBreak }
      | some rc =>
        let be := rc.breakEvent
        let confirmed : Bool :=
          match be.dir with
          | BreakDir.up => decide (inp.bar.close > inp.bar.opn)
          | BreakDir.down => decide (inp.bar.close < inp.bar.opn)
        if !confirmed then
          { s with fsm := FSMState.awaitingBreak, retestContext := none }
        else
          let tradeSide := match be.dir with
            | BreakDir.up => Side.buy
            | BreakDir.down => Side.sell
          let verdict := validateSignal cfg.minBreakoutVolume cfg.minDistanceFromLevel
            tradeSide be.candle inp.bar s.levels
          if !verdict.1 then
            { s with fsm := FSMState.awaitingBreak, retestContext := none }
          else
            match calculateStopFromCandle tradeSide (some rc.pivotCandle) cfg.symbol with
            | none => { s with fsm := FSMState.awaitingBreak, retestContext := none }
            | some slPrice =>
              if slPrice = 0 then
                -- the `if not sl_price` guard treats a 0.0 stop as missing
                { s with fsm := FSMState.awaitingBreak, retestContext := none }
              else
                let entryPrice := inp.bar.close
                let slippage : ℚ :=
                  match tradeSide with
                  | Side.buy => entryPrice - be.level
                  | Side.sell => be.level - entryPrice
                if slippage > cfg.maxEntrySlippagePoints then
                  { s with fsm := FSMState.awaitingBreak, retestContext := none }
                else
                  let isHighConviction := rc.confluenceType.isSome
                  let quantity := calculateSize s.balance entryPrice slPrice cfg.symbol isHighConviction
                  if quantity = 0 then
                    { s with fsm := FSMState.awaitingBreak, retestContext := none }
                  else
                    let tpPrice := setProfitTarget entryPrice slPrice tradeSide
                    let tr : Trade := {
                      entryTime := inp.bar.name
                      entryPrice := entryPrice
                      side := tradeSide
                      stopLoss := slPrice
                      takeProfit := tpPrice
                      quantity := quantity
                      status := TradeStatus.active
                      levelsInfo := s.levels
                      levelBroken := be.levelName
                      retestedLevel := some be.level
                      timeAtBreak := be.candle.name
                      timeAtRetest := some rc.rejectionCandle.name
                      exitTime := none
                      exitPrice := none
                      exitReason := none
                      pnlPoints := none
                      pnlDollars := none
                      result := none }
                    { s with
                      fsm := FSMState.inTrade
                      activeTrade := some tr
                      tradeTaken := true
                      retestContext := none }
    | FSMState.inTrade =>
      match s.activeTrade with
      | none => s -- the source would raise a TypeError here; unreachable in a run
      | some t =>
        if (match t.side with
            | Side.buy => decide (inp.bar.low ≤ t.stopLoss)
            | Side.sell => decide (inp.bar.high ≥ t.stopLoss)) then
          closeTradeA cfg s t inp.bar ExitReason.stopLoss
        else if (match t.side with
            | Side.buy => decide (inp.bar.high ≥ t.takeProfit)
            | Side.sell => decide (inp.bar.low ≤ t.takeProfit)) then
          closeTradeA cfg s t inp.bar ExitReason.takeProfit
        else s

/-- A whole simulated day of backtester.py for one symbol: fold the bar
step over the day's dispatched bars.  Note the source has no end-of-day
liquidation pass. -/
def runDayA (cfg : SymCfg) (balance : ℚ) (lv : Levels) (inputs : List BarInput) : DrvState :=
  inputs.foldl (stepA cfg) (initState balance lv)

/-- The daily reset of backtester.py lines 112-114: clear the daily trade
status, force AWAITING_BREAK and drop any active trade without recording it. -/
def dailyResetA (s : DrvState) (newLevels : Levels) : DrvState :=
  { s with
    tradeTaken := false
    lastTradeOutcome := none
    fsm := FSMState.awaitingBreak
    activeTrade := none
    levels := newLevels }

/-- BacktesterProjectX._close_trade_and_reset_state (backtester_projectx.py
lines 455-501): exit price from the trigger for SL/TP and from the exit
bar close otherwise (EOD); records pnl_points as well, clears the context
and resets the break detector. -/
def closeTradeX (cfg : SymCfg) (s : DrvState) (t : Trade) (exitBar : Bar)
    (reason : ExitReason) : DrvState :=
  let exitPrice : ℚ :=
    match reason with
    | ExitReason.stopLoss => t.stopLoss
    | ExitReason.takeProfit => t.takeProfit
    | ExitReason.eod => exitBar.close
  let pnlPoints : ℚ :=
    match t.side with
    | Side.buy => exitPrice - t.entryPrice
    | Side.sell => t.entryPrice - exitPrice
  let pnlDollars := pnlPoints * (t.quantity : ℚ) * ((dollarPerPoint cfg.symbol).getD 0)
  let result := if pnlDollars > 0 then TradeResult.win else TradeResult.loss
  let t2 := { t with
    exitTime := some exitBar.name
    exitPrice := some exitPrice
    pnlPoints := some pnlPoints
    pnlDollars := some pnlDollars
    status := TradeStatus.closed
    exitReason := some reason
    result := some result }
  { s with
    balance := s.balance + pnlDollars
    trades := s.trades ++ [t2]
    activeTrade := none
    fsm := FSMState.awaitingBreak
    retestContext := none
    det := bdReset }

/-- One bar of BacktesterProjectX.run_day_simulation (backtester_projectx.py
lines 218-441) for one symbol.  Outside the morning session only an open
trade is managed; the awaiting-break branch carries the A-plus immediate
entry sub-branch, which is transcribed although its guard (the absent
immediate_entry key) can never hold with the src BreakDetector. -/
def stepX (cfg : SymCfg) (s : DrvState) (inp : BarInput) : DrvState :=
  if decide (s.fsm ≠ FSMState.inTrade) && !(isMorningTime inp.tod) then s
  else
    match s.fsm with
    | FSMState.awaitingBreak =>
      let currentPrice := inp.bar.close
      let chan := premarketChannel true s.levels currentPrice
      -- fallback (lines 258-261): all non-None key levels become active
      let activeLevels := if levelsEmpty chan then s.levels else chan
      if levelsEmpty activeLevels then s
      else
        let res := checkForBreak cfg.confirmationCandles s.det inp.bar activeLevels inp.emas.ema200
        match res.1 with
        | none => { s with det := res.2 }
        | some ev =>
          if immediateEntryFlag ev then
            -- A-plus immediate entry (lines 268-306)
            let tradeSide := if ev.dir = BreakDir.up then Side.buy else Side.sell
            let pivotCandle := ev.candle
            match calculateStopFromCandle tradeSide (some pivotCandle) cfg.symbol with
            | some slPrice =>
              if slPrice = 0 then { s with det := bdReset, fsm := FSMState.awaitingBreak }
              else
                let entryPrice := inp.bar.close
                let quantity := calculateSize s.balance entryPrice slPrice cfg.symbol
                  (highConvictionFlag ev)
                if quantity > 0 then
                  let tpPrice := setProfitTarget entryPrice slPrice tradeSide
                  let tr : Trade := {
                    entryTime := inp.bar.name
                    entryPrice := entryPrice
                    side := tradeSide
                    stopLoss := slPrice
                    takeProfit := tpPrice
                    quantity := quantity
                    status := TradeStatus.active
                    levelsInfo := s.levels
                    levelBroken := ev.levelName
                    retestedLevel := none
                    timeAtBreak := ev.candle.name
                    timeAtRetest := none
                    exitTime := none
                    exitPrice := none
                    exitReason := none
                    pnlPoints := none
                    pnlDollars := none
                    result := none }
                  { s with
                    det := res.2
                    fsm := FSMState.inTrade
                    activeTrade := some tr
                    tradeTaken := true }
                else { s with det := bdReset, fsm := FSMState.awaitingBreak }
            | none => { s with det := bdReset, fsm := FSMState.awaitingBreak }
          else
            { s with
              det := res.2
              fsm := FSMState.awaitingRetest
              lastBreakEvent := some ⟨ev.dir, ev.levelName, ev.levelValue, ev.candle⟩
              retestTimeoutStamp := inp.bar.name + cfg.retestTimeoutMinutes }
    | FSMState.awaitingRetest =>
      if inp.bar.name > s.retestTimeoutStamp then
        { s with fsm := FSMState.awaitingBreak }
      else
        match s.lastBreakEvent with
        | none => s
        | some be =>
          match checkForRetest cfg.retestTolerance cfg.emaTol13 cfg.allowEmaDipBuys
              cfg.requireEmaStack inp.bar be.level be.dir inp.emas with
          | none => s
          | some pr =>
            { s with
              fsm := FSMState.awaitingConfirmation
              retestContext := some ⟨be, pr.1, pr.2.1, some pr.2.2⟩ }
    | FSMState.awaitingConfirmation =>
      match s.retestContext with
      | none => { s with fsm := FSMState.awaitingBreak }
      | some rc =>
        let be := rc.breakEvent
        -- confirmation (lines 350-359): hold beyond the level and close
        -- beyond the rejection candle open
        let confirmed : Bool :=
          match be.dir with
          | BreakDir.up =>
            decide (inp.bar.low > be.level) && decide (inp.bar.close > rc.rejectionCandle.opn)
          | BreakDir.down =>
            decide (inp.bar.high < be.level) && decide (inp.bar.close < rc.rejectionCandle.opn)
        if !confirmed then
          -- the failure branch continues without clearing the context (line 412 is dead)
          { s with fsm := FSMState.awaitingBreak }
        else
          let tradeSide := match be.dir with
            | BreakDir.up => Side.buy
            | BreakDir.down => Side.sell
          -- the context built at line 364 has no levels entry, so the
          -- validator's confluence check sees an empty dictionary
          let verdict := validateSignal cfg.minBreakoutVolume cfg.minDistanceFromLevel
            tradeSide be.candle inp.bar emptyLevels
          if !verdict.1 then
            { s with fsm := FSMState.awaitingBreak, retestContext := none }
          else
            match calculateStopFromCandle tradeSide (some rc.pivotCandle) cfg.symbol with
            | none => { s with fsm := FSMState.awaitingBreak, retestContext := none }
            | some slPrice =>
              if slPrice = 0 then
                { s with fsm := FSMState.awaitingBreak, retestContext := none }
              else
                let entryPrice := inp.bar.close
                let isHighConviction := rc.confluenceType.isSome
                let quantity := calculateSize s.balance entryPrice slPrice cfg.symbol isHighConviction
                if quantity = 0 then
                  { s with fsm := FSMState.awaitingBreak, retestContext := none }
                else
                  let tpPrice := setProfitTarget entryPrice slPrice tradeSide
                  let tr : Trade := {
                    entryTime := inp.bar.name
                    entryPrice := entryPrice
                    side := tradeSide
                    stopLoss := slPrice
                    takeProfit := tpPrice
                    quantity := quantity
                    status := TradeStatus.active
                    levelsInfo := s.levels
                    levelBroken := be.levelName
                    retestedLevel := none
                    timeAtBreak := be.candle.name
                    timeAtRetest := some rc.rejectionCandle.name
                    exitTime := none
                    exitPrice := none
                    exitReason := none
                    pnlPoints := none
                    pnlDollars := none
                    result := none }
                  -- the success branch continues before line 412, so the
                  -- stale context is kept until the close resets it
                  { s with fsm := FSMState.inTrade, activeTrade := some tr, tradeTaken := true }
    | FSMState.inTrade =>
      match s.activeTrade with
      | none => s -- `if not trade: continue`
      | some t =>
        let hit : Option (ℚ × ExitReason) :=
          match t.side with
          | Side.buy =>
            if inp.bar.low ≤ t.stopLoss then some (t.stopLoss, ExitReason.stopLoss)
            else if inp.bar.high ≥ t.takeProfit then some (t.takeProfit, ExitReason.takeProfit)
            else none
          | Side.sell =>
            if inp.bar.high ≥ t.stopLoss then some (t.stopLoss, ExitReason.stopLoss)
            else if inp.bar.low ≤ t.takeProfit then some (t.takeProfit, ExitReason.takeProfit)
            else none
        match hit with
        | some pe =>
          -- `if exit_price:` — a 0.0 trigger price is falsy and skips the close
          if pe.1 ≠ 0 then closeTradeX cfg s t inp.bar pe.2 else s
        | none => s

/-- The end-of-day pass of backtester_projectx.py lines 443-452: a still
open position is closed as EOD on the symbol's last bar of the day (no
close happens when the day produced no bars for the symbol). -/
def eodCloseX (cfg : SymCfg) (s : DrvState) (lastBarOfDay? : Option Bar) : DrvState :=
  if s.fsm = FSMState.inTrade then
    match s.activeTrade with
    | some t =>
      match lastBarOfDay? with
      | some b => closeTradeX cfg s t b ExitReason.eod
      | none => s
    | none => s
  else s

/-- A whole simulated day of backtester_projectx.py for one symbol: the
bar fold followed by the end-of-day close pass. -/
def runDayX (cfg : SymCfg) (balance : ℚ) (lv : Levels) (inputs : List BarInput)
    (lastBarOfDay? : Option Bar) : DrvState :=
  eodCloseX cfg (inputs.foldl (stepX cfg) (initState balance lv)) lastBarOfDay?

/-- A concrete pivot candle for the C7 witness. -/
def c7PivotW : Bar := { name := 5, opn := 101, high := 103, low := 100, close := 102, volume := 40 }

/-- A bar whose closes sit above the watched level from the start. -/
def c5Bar1 : Bar := ⟨0, 103, 105, 102, 104, 100⟩

/-- A second bar persisting above the level without ever having crossed it. -/
def c5Bar2 : Bar := ⟨1, 104, 106, 103, 105, 100⟩

/-- A watched-level dictionary containing only the resistance pdh = 100. -/
def c5Levels : Levels := ⟨some 100, none, none, none⟩

/-- Reachability invariant of the detector counters: the counter opposite
to the last counted direction is zero (both are zero when no direction
has been counted).  It holds for the fresh state and is preserved by
check_for_break. -/
def bdWellFormed (st : BDState) : Prop :=
  match st.lastBreakType with
  | some BreakDir.up => st.breakBelowConfirmations = 0
  | some BreakDir.down => st.breakAboveConfirmations = 0
  | none => st.breakAboveConfirmations = 0 ∧ st.breakBelowConfirmations = 0

/-- The up-counter value after counting a bar that closes above the lowest
resistance: one more than before when the direction was already up, else 1. -/
def upCountAfter (st : BDState) : ℕ :=
  if st.lastBreakType = some BreakDir.up then st.breakAboveConfirmations + 1 else 1

/-- The down-counter value after counting a bar that closes below the
highest support. -/
def downCountAfter (st : BDState) : ℕ :=
  if st.lastBreakType = some BreakDir.down then st.breakBelowConfirmations + 1 else 1

/-- strategy_config.CONVICTION_CANDLE_BODY_RATIO, the per-symbol conviction
threshold (read by PatternValidator but never consulted on the break path). -/
def convictionCandleBodyRatio : String → Option ℚ := fun s =>
  if s = "MNQ" then some (7 / 10)
  else if s = "MES" then some (3 / 5)
  else none

/-- A maximal-conviction breakout bar: body 9 of range 10 above pdh = 101. -/
def convBar1 : Bar := ⟨0, 100, 110, 100, 109, 1000⟩

/-- A second maximal-conviction bar, body 9 of range 10. -/
def convBar2 : Bar := ⟨2, 109, 119, 109, 118, 1000⟩

/-- The watched level broken by the conviction bars. -/
def c6Levels : Levels := ⟨some 101, none, none, none⟩

/-- The detector state after the first conviction bar. -/
def c6DetSt : BDState := (checkForBreak 2 bdInit convBar1 c6Levels (some 50)).2

/-- The break event emitted on the second conviction bar. -/
def c6Event : BreakEvent := ⟨BreakDir.up, LName.pdh, 101, convBar2⟩

/-- A resolved MNQ configuration for the C6 evaluation. -/
def c6Cfg : SymCfg := {
  symbol := "MNQ"
  confirmationCandles := 2
  retestTimeoutMinutes := 60
  retestTolerance := 15
  emaTol13 := 40
  allowEmaDipBuys := true
  requireEmaStack := true
  minBreakoutVolume := 80
  minDistanceFromLevel := 10
  maxEntrySlippagePoints := 50 }

/-- The projectx driver state awaiting a break after the first conviction bar. -/
def c6State : DrvState := { initState 2000 c6Levels with det := c6DetSt }

/-- The dispatched second conviction bar inside the morning session. -/
def c6Input : BarInput := { bar := convBar2, tod := 600, emas := ⟨none, none, some 50⟩ }

/-- The per-symbol ownership invariant of both drivers: the active_trade
slot is occupied exactly in IN_TRADE, an occupied slot holds an ACTIVE
trade, and every recorded trade is CLOSED. -/
def ClaimInv (s : DrvState) : Prop :=
  (s.activeTrade.isSome ↔ s.fsm = FSMState.inTrade) ∧
  (∀ t, s.activeTrade = some t → t.status = TradeStatus.active) ∧
  (∀ t ∈ s.trades, t.status = TradeStatus.closed)

/-- The number of trade records with status ACTIVE visible for the symbol:
the occupied active_trade slot plus any ACTIVE rows of the trade log. -/
def activeCount (s : DrvState) : ℕ :=
  (match s.activeTrade with
    | some t => if t.status = TradeStatus.active then 1 else 0
    | none => 0) +
    (s.trades.filter (fun t => t.status == TradeStatus.active)).length

/-- The active trade for the C2 witness: long from 100 with stop 90, target 120. -/
def c2TradeW : Trade := {
  entryTime := 10
  entryPrice := 100
  side := Side.buy
  stopLoss := 90
  takeProfit := 120
  quantity := 1
  status := TradeStatus.active
  levelsInfo := emptyLevels
  levelBroken := LName.pdh
  retestedLevel := none
  timeAtBreak := 5
  timeAtRetest := none
  exitTime := none
  exitPrice := none
  exitReason := none
  pnlPoints := none
  pnlDollars := none
  result := none }

/-- The C2 witness configuration (MNQ values). -/
def c2Cfg : SymCfg := {
  symbol := "MNQ"
  confirmationCandles := 2
  retestTimeoutMinutes := 60
  retestTolerance := 15
  emaTol13 := 40
  allowEmaDipBuys := true
  requireEmaStack := true
  minBreakoutVolume := 80
  minDistanceFromLevel := 10
  maxEntrySlippagePoints := 50 }

/-- An in-trade driver state holding the C2 witness trade. -/
def c2State : DrvState :=
  { initState 2000 emptyLevels with fsm := FSMState.inTrade, activeTrade := some c2TradeW }

/-- A bar breaching both the stop (low 85 ≤ 90) and the target (high 125 ≥ 120). -/
def c2Input : BarInput := { bar := ⟨20, 100, 125, 85, 110, 50⟩, tod := 600, emas := ⟨none, none, none⟩ }

/-- The C3 witness configuration: one confirmation candle so a single
close above the level signals. -/
def c3Cfg : SymCfg := {
  symbol := "MNQ"
  confirmationCandles := 1
  retestTimeoutMinutes := 60
  retestTolerance := 15
  emaTol13 := 40
  allowEmaDipBuys := true
  requireEmaStack := true
  minBreakoutVolume := 80
  minDistanceFromLevel := 10
  maxEntrySlippagePoints := 50 }

/-- Awaiting-break witness state watching pdh = 100. -/
def c3StateB : DrvState := initState 2000 ⟨some 100, none, none, none⟩

/-- A breaking bar at timestamp 7 closing at 104 above the level. -/
def c3InputB : BarInput :=
  { bar := ⟨7, 103, 105, 102, 104, 100⟩, tod := 600, emas := ⟨none, none, some 50⟩ }

/-- Awaiting-retest witness state whose deadline 10 has passed. -/
def c3StateR : DrvState :=
  { initState 2000 ⟨some 100, none, none, none⟩ with
    fsm := FSMState.awaitingRetest
    retestTimeoutStamp := 10
    lastBreakEvent := some ⟨BreakDir.up, LName.pdh, 100, ⟨7, 103, 105, 102, 104, 100⟩⟩ }

/-- A bar at timestamp 11, strictly after the deadline. -/
def c3InputR : BarInput :=
  { bar := ⟨11, 104, 105, 103, 104, 100⟩, tod := 610, emas := ⟨none, none, some 50⟩ }

/-- The C4 open long position: entry 100, stop 90, target 120, neither hit. -/
def c4TradeW : Trade := {
  entryTime := 600
  entryPrice := 100
  side := Side.buy
  stopLoss := 90
  takeProfit := 120
  quantity := 1
  status := TradeStatus.active
  levelsInfo := emptyLevels
  levelBroken := LName.pdh
  retestedLevel := some 100
  timeAtBreak := 590
  timeAtRetest := some 595
  exitTime := none
  exitPrice := none
  exitReason := none
  pnlPoints := none
  pnlDollars := none
  result := none }

/-- The C4 configuration (MNQ values). -/
def c4Cfg : SymCfg := {
  symbol := "MNQ"
  confirmationCandles := 2
  retestTimeoutMinutes := 60
  retestTolerance := 15
  emaTol13 := 40
  allowEmaDipBuys := true
  requireEmaStack := true
  minBreakoutVolume := 80
  minDistanceFromLevel := 10
  maxEntrySlippagePoints := 50 }

/-- An in-trade state with the open C4 position and an empty trade log. -/
def c4State : DrvState :=
  { initState 2000 emptyLevels with fsm := FSMState.inTrade, activeTrade := some c4TradeW }

/-- The session-end bar: low 99 stays above the stop, high 101 below the target. -/
def c4LastBar : Bar := ⟨650, 100, 101, 99, 101, 10⟩

/-- The session-end bar as a dispatched morning bar. -/
def c4Input : BarInput := { bar := c4LastBar, tod := 650, emas := ⟨none, none, none⟩ }

/-- The C9 witness configuration with a 5-point slippage cap. -/
def c9Cfg : SymCfg := {
  symbol := "MNQ"
  confirmationCandles := 2
  retestTimeoutMinutes := 60
  retestTolerance := 15
  emaTol13 := 40
  allowEmaDipBuys := true
  requireEmaStack := true
  minBreakoutVolume := 80
  minDistanceFromLevel := 10
  maxEntrySlippagePoints := 5 }

/-- The C9 witness retest context: up break of pdh = 100 with a pivot low of 100. -/
def c9Context : RContext := {
  breakEvent := ⟨BreakDir.up, LName.pdh, 100, ⟨590, 99, 106, 98, 105, 1000⟩⟩
  pivotCandle := ⟨595, 101, 103, 100, 103, 200⟩
  rejectionCandle := ⟨595, 101, 103, 100, 103, 200⟩
  confluenceType := some ConfTag.staticLevel }

/-- An awaiting-confirmation state holding the C9 context. -/
def c9State : DrvState :=
  { initState 2000 ⟨some 100, some 80, none, none⟩ with
    fsm := FSMState.awaitingConfirmation
    retestContext := some c9Context }

/-- A bullish confirmation bar closing 11 points past the broken level. -/
def c9Input : BarInput :=
  { bar := ⟨600, 104, 112, 104, 111, 300⟩, tod := 600, emas := ⟨none, none, none⟩ }

/-- A foldl of max stays in the list or returns the seed. -/
lemma foldlMax_mem {α : Type} [LinearOrder α] (xs : List α) (a : α) :
    xs.foldl max a = a ∨ xs.foldl max a ∈ xs := by
  induction xs generalizing a with
  | nil => exact Or.inl rfl
  | cons x xs ih =>
    simp only [List.foldl_cons]
    rcases ih (max a x) with h | h
    · rw [h]
      rcases max_choice a x with h2 | h2
      · exact Or.inl h2
      · exact Or.inr (by rw [h2]; exact List.mem_cons_self x xs)
    · exact Or.inr (List.mem_cons_of_mem x h)

/-- listMax? is none exactly on the empty list. -/
lemma listMax?_eq_none_iff {α : Type} [LinearOrder α] (l : List α) :
    listMax? l = none ↔ l = [] := by
  cases l <;> simp [listMax?]

/-- listMin? is none exactly on the empty list. -/
lemma listMin?_eq_none_iff {α : Type} [LinearOrder α] (l : List α) :
    listMin? l = none ↔ l = [] := by
  cases l <;> simp [listMin?]

/-- A value returned by listMax? belongs to the list. -/
lemma listMax?_mem {α : Type} [LinearOrder α] {l : List α} {m : α}
    (h : listMax? l = some m) : m ∈ l := by
  cases l with
  | nil => simp [listMax?] at h
  | cons x xs =>
    simp only [listMax?, Option.some.injEq] at h
    rcases foldlMax_mem xs x with h2 | h2
    · rw [← h, h2]; exact List.mem_cons_self x xs
    · rw [← h]; exact List.mem_cons_of_mem x h2

/-- When the previous-trading-day search succeeds with day d, some bar of
the input is a valid regular-hours bar of day d. -/
lemma pdh_branch_some {bars : List LCBar} {simDay d : ℤ}
    (hprev : listMax? ((bars.filter (isValidRTHBar simDay)).map (fun b => b.day)) = some d) :
    ∃ b ∈ bars, (decide (b.day = d) && inRTHsec b.sec && decide (0 < b.low)) = true ∧
      isValidRTHBar simDay b = true := by
  have hmem := listMax?_mem hprev
  rcases List.mem_map.mp hmem with ⟨b, hb, hbd⟩
  rcases List.mem_filter.mp hb with ⟨hbars, hvalid⟩
  refine ⟨b, hbars, ?_, hvalid⟩
  simp only [isValidRTHBar, Bool.and_eq_true, decide_eq_true_eq] at hvalid
  simp [hbd, hvalid.1.2, hvalid.2]

/-- The up-counter update of check_for_break equals upCountAfter. -/
lemma upCountAfter_eq (st : BDState) :
    (if st.lastBreakType = some BreakDir.up then st else bdReset).breakAboveConfirmations + 1 =
      upCountAfter st := by
  simp only [upCountAfter]
  split <;> simp [bdReset]

/-- The down-counter update of check_for_break equals downCountAfter. -/
lemma downCountAfter_eq (st : BDState) :
    (if st.lastBreakType = some BreakDir.down then st else bdReset).breakBelowConfirmations + 1 =
      downCountAfter st := by
  simp only [downCountAfter]
  split <;> simp [bdReset]

/-- close_trade of backtester.py preserves the invariant: it appends a
CLOSED trade and clears the slot. -/
lemma claimInv_closeA (cfg : SymCfg) (s : DrvState) (t : Trade) (bar : Bar)
    (reason : ExitReason) (h : ClaimInv s) : ClaimInv (closeTradeA cfg s t bar reason) := by
  obtain ⟨h1, h2, h3⟩ := h
  refine ⟨by simp [closeTradeA], by simp [closeTradeA], ?_⟩
  intro t2 ht2
  simp only [closeTradeA, List.mem_append] at ht2
  rcases ht2 with ht2 | ht2
  · exact h3 t2 ht2
  · simp only [List.mem_singleton] at ht2
    subst ht2
    rfl

/-- _close_trade_and_reset_state of backtester_projectx.py preserves the
invariant. -/
lemma claimInv_closeX (cfg : SymCfg) (s : DrvState) (t : Trade) (bar : Bar)
    (reason : ExitReason) (h : ClaimInv s) : ClaimInv (closeTradeX cfg s t bar reason) := by
  obtain ⟨h1, h2, h3⟩ := h
  refine ⟨by simp [closeTradeX], by simp [closeTradeX], ?_⟩
  intro t2 ht2
  simp only [closeTradeX, List.mem_append] at ht2
  rcases ht2 with ht2 | ht2
  · exact h3 t2 ht2
  · simp only [List.mem_singleton] at ht2
    subst ht2
    rfl

/-- Every branch of the backtester.py bar step preserves the invariant:
a position is opened only from AWAITING_CONFIRMATION into IN_TRADE, and
only close_trade clears it. -/
lemma claimInv_stepA (cfg : SymCfg) (s : DrvState) (inp : BarInput)
    (h : ClaimInv s) : ClaimInv (stepA cfg s inp) := by
  obtain ⟨h1, h2, h3⟩ := h
  unfold stepA
  dsimp only
  split
  · exact ⟨h1, h2, h3⟩
  split
  · repeat' split
    all_goals (first
      | exact ⟨h1, h2, h3⟩
      | (refine ⟨?_, ?_, ?_⟩ <;> simp_all))
  · repeat' split
    all_goals (first
      | exact ⟨h1, h2, h3⟩
      | (refine ⟨?_, ?_, ?_⟩ <;> simp_all))
  · split
    · refine ⟨?_, ?_, ?_⟩ <;> simp_all
    · rename_i rc heq
      cases hdir : rc.breakEvent.dir <;>
        (repeat' split) <;>
        (first
          | exact ⟨h1, h2, h3⟩
          | (refine ⟨?_, ?_, ?_⟩ <;> simp_all))
  · repeat' split
    all_goals (first
      | exact ⟨h1, h2, h3⟩
      | exact claimInv_closeA _ _ _ _ _ ⟨h1, h2, h3⟩
      | (refine ⟨?_, ?_, ?_⟩ <;> simp_all))

/-- Every branch of the backtester_projectx.py bar step preserves the
invariant, the transcribed A-plus branch included. -/
lemma claimInv_stepX (cfg : SymCfg) (s : DrvState) (inp : BarInput)
    (h : ClaimInv s) : ClaimInv (stepX cfg s inp) := by
  obtain ⟨h1, h2, h3⟩ := h
  unfold stepX
  dsimp only
  split
  · exact ⟨h1, h2, h3⟩
  split
  · repeat' split
    all_goals (first
      | exact ⟨h1, h2, h3⟩
      | (refine ⟨?_, ?_, ?_⟩ <;> simp_all))
  · repeat' split
    all_goals (first
      | exact ⟨h1, h2, h3⟩
      | (refine ⟨?_, ?_, ?_⟩ <;> simp_all))
  · split
    · refine ⟨?_, ?_, ?_⟩ <;> simp_all
    · rename_i rc heq
      cases hdir : rc.breakEvent.dir <;>
        (repeat' split) <;>
        (first
          | exact ⟨h1, h2, h3⟩
          | (refine ⟨?_, ?_, ?_⟩ <;> simp_all))
  · repeat' split
    all_goals (first
      | exact ⟨h1, h2, h3⟩
      | exact claimInv_closeX _ _ _ _ _ ⟨h1, h2, h3⟩
      | (refine ⟨?_, ?_, ?_⟩ <;> simp_all))

/-- The end-of-day close pass preserves the invariant. -/
lemma claimInv_eodCloseX (cfg : SymCfg) (s : DrvState) (lastBar? : Option Bar)
    (h : ClaimInv s) : ClaimInv (eodCloseX cfg s lastBar?) := by
  unfold eodCloseX
  repeat' split
  all_goals (first
    | exact h
    | exact claimInv_closeX _ _ _ _ _ h)

/-- The freshly initialised state satisfies the invariant. -/
lemma claimInv_init (balance : ℚ) (lv : Levels) : ClaimInv (initState balance lv) := by
  refine ⟨?_, ?_, ?_⟩ <;> simp [initState]

/-- The invariant holds after any number of backtester.py bar steps. -/
lemma claimInv_foldlA (cfg : SymCfg) (inputs : List BarInput) (s : DrvState)
    (h : ClaimInv s) : ClaimInv (inputs.foldl (stepA cfg) s) := by
  induction inputs generalizing s with
  | nil => exact h
  | cons i rest ih => exact ih _ (claimInv_stepA cfg s i h)

/-- The invariant holds after any number of projectx bar steps. -/
lemma claimInv_foldlX (cfg : SymCfg) (inputs : List BarInput) (s : DrvState)
    (h : ClaimInv s) : ClaimInv (inputs.foldl (stepX cfg) s) := by
  induction inputs generalizing s with
  | nil => exact h
  | cons i rest ih => exact ih _ (claimInv_stepX cfg s i h)

/-- Under the invariant at most one ACTIVE position exists. -/
lemma activeCount_le_one_of_claimInv (s : DrvState) (h : ClaimInv s) :
    activeCount s ≤ 1 := by
  obtain ⟨h1, h2, h3⟩ := h
  have hz : (s.trades.filter (fun t => t.status == TradeStatus.active)).length = 0 := by
    rw [List.length_eq_zero, List.filter_eq_nil_iff]
    intro t ht
    simp [h3 t ht]
  rcases ha : s.activeTrade with _ | t
  · simp [activeCount, ha, hz]
  · simp only [activeCount, ha, hz]
    split <;> omega

/-- Claim C7: for a long the stop is the pivot low minus the per-symbol
buffer and the target is entry plus TAKE_PROFIT_RRR times the stop
distance; for a short the stop is the pivot high plus the buffer and the
target is entry minus TAKE_PROFIT_RRR times the stop distance; the stop
computation returns none when the pivot candle is missing. -/
theorem c7_stop_and_target :
    (∀ (pivotCandle : Bar) (symbol : String) (buffer entryPrice : ℚ),
      stopLossBufferPoints symbol = some buffer →
        calculateStopFromCandle Side.buy (some pivotCandle) symbol =
          some (pivotCandle.low - buffer) ∧
        setProfitTarget entryPrice (pivotCandle.low - buffer) Side.buy =
          entryPrice + takeProfitRRR * |entryPrice - (pivotCandle.low - buffer)| ∧
        calculateStopFromCandle Side.sell (some pivotCandle) symbol =
          some (pivotCandle.high + buffer) ∧
        setProfitTarget entryPrice (pivotCandle.high + buffer) Side.sell =
          entryPrice - takeProfitRRR * |entryPrice - (pivotCandle.high + buffer)|) ∧
    (∀ (signalDirection : Side) (symbol : String),
      calculateStopFromCandle signalDirection none symbol = none) := by
  constructor
  · intro pivotCandle symbol buffer entryPrice h
    refine ⟨?_, ?_, ?_, ?_⟩
    · simp [calculateStopFromCandle, h]
    · simp only [setProfitTarget, takeProfitRRR]
      ring
    · simp [calculateStopFromCandle, h]
    · simp only [setProfitTarget, takeProfitRRR]
      ring
  · intro signalDirection symbol
    rfl

/-- Witness for C7 at the MNQ buffer of 25, a pivot low of 100 and an
entry of 102: the hypothesis of the theorem holds for MNQ by rfl. -/
theorem c7_stop_and_target_witness :
    stopLossBufferPoints "MNQ" = some 25 ∧
    calculateStopFromCandle Side.buy (some c7PivotW) "MNQ" = some (c7PivotW.low - 25) ∧
    setProfitTarget 102 (c7PivotW.low - 25) Side.buy =
      102 + takeProfitRRR * |102 - (c7PivotW.low - 25)| ∧
    calculateStopFromCandle Side.sell none "MNQ" = none :=
  ⟨rfl, (c7_stop_and_target.1 c7PivotW "MNQ" 25 102 rfl).1,
    (c7_stop_and_target.1 c7PivotW "MNQ" 25 102 rfl).2.1,
    c7_stop_and_target.2 Side.sell "MNQ"⟩

/-- Claim C8: with the account balance, configuration, symbol and
conviction flag fixed, calculate_size is non-increasing in the stop
distance over positive distances, and returns exactly 0 (a normal value,
the function is total) when the stop distance is 0. -/
theorem c8_sizer_monotone_and_zero :
    (∀ (accountBalance entryPrice stop1 stop2 : ℚ) (symbol : String)
      (isHighConviction : Bool) (v : ℚ),
      dollarPerPoint symbol = some v → 0 < v →
      |entryPrice - stop1| ≠ 0 → |entryPrice - stop1| ≤ |entryPrice - stop2| →
      calculateSize accountBalance entryPrice stop2 symbol isHighConviction ≤
        calculateSize accountBalance entryPrice stop1 symbol isHighConviction) ∧
    (∀ (accountBalance entryPrice stopLossPrice : ℚ) (symbol : String) (hc : Bool),
      |entryPrice - stopLossPrice| = 0 →
      calculateSize accountBalance entryPrice stopLossPrice symbol hc = 0) := by
  constructor
  · intro accountBalance entryPrice stop1 stop2 symbol hc v hdpp hv hd1 hle
    have hd1pos : 0 < |entryPrice - stop1| := lt_of_le_of_ne (abs_nonneg _) (Ne.symm hd1)
    have hd2pos : 0 < |entryPrice - stop2| := lt_of_lt_of_le hd1pos hle
    have hd2 : |entryPrice - stop2| ≠ 0 := ne_of_gt hd2pos
    simp only [calculateSize, hdpp]
    rw [if_neg hd2, if_neg hd1]
    have hr1pos : 0 < |entryPrice - stop1| * v := mul_pos hd1pos hv
    have hr2pos : 0 < |entryPrice - stop2| * v := mul_pos hd2pos hv
    rw [if_neg (ne_of_gt hr2pos), if_neg (ne_of_gt hr1pos)]
    set T : ℚ := if hc then
        (match riskDollarAmount with
          | some amt => amt
          | none => accountBalance * riskPerTrade) * highConvictionRiskMultiplier
      else
        (match riskDollarAmount with
          | some amt => amt
          | none => accountBalance * riskPerTrade) with hT
    have hTpos : 0 < T := by
      rw [hT]
      simp only [riskDollarAmount, highConvictionRiskMultiplier]
      split <;> norm_num
    have hdiv : T / (|entryPrice - stop2| * v) ≤ T / (|entryPrice - stop1| * v) := by
      apply div_le_div_of_nonneg_left hTpos.le hr1pos
      exact mul_le_mul_of_nonneg_right hle hv.le
    have hfloor := Int.floor_le_floor hdiv
    split <;> split <;> omega
  · intro accountBalance entryPrice stopLossPrice symbol hc h
    simp only [calculateSize]
    cases hdpp : dollarPerPoint symbol with
    | none => rfl
    | some v => simp [h]

/-- Witness for C8 on MNQ from a 2000 balance and entry 100: a stop 50
points away sizes no larger than a stop 1 point away, and a zero-distance
stop sizes to exactly 0. -/
theorem c8_sizer_monotone_and_zero_witness :
    calculateSize 2000 100 50 "MNQ" false ≤ calculateSize 2000 100 99 "MNQ" false ∧
    calculateSize 2000 100 100 "MNQ" false = 0 :=
  ⟨c8_sizer_monotone_and_zero.1 2000 100 99 50 "MNQ" false 2 rfl (by norm_num)
      (by norm_num) (by norm_num),
    c8_sizer_monotone_and_zero.2 2000 100 100 "MNQ" false (by norm_num)⟩

/-- Claim C10: calculate_all_levels is total (never raises) and returns
the record of exactly four optional levels; on empty input all four are
None, and each field is None exactly when its session window holds no
valid bar: PDH/PDL when no past day has a valid regular-hours bar,
PMH/PML when the simulation day has no valid pre-market bar. -/
theorem c10_level_calculator_total : ∀ (bars : List LCBar) (simDay : ℤ),
    (bars = [] → calculateAllLevels bars simDay = emptyLevels) ∧
    ((calculateAllLevels bars simDay).pdh = none ↔
      ∀ b ∈ bars, isValidRTHBar simDay b = false) ∧
    ((calculateAllLevels bars simDay).pdl = none ↔
      ∀ b ∈ bars, isValidRTHBar simDay b = false) ∧
    ((calculateAllLevels bars simDay).pmh = none ↔
      ∀ b ∈ bars, isValidPMBar simDay b = false) ∧
    ((calculateAllLevels bars simDay).pml = none ↔
      ∀ b ∈ bars, isValidPMBar simDay b = false) := by
  intro bars simDay
  refine ⟨?_, ?_, ?_, ?_, ?_⟩
  · intro h; subst h; rfl
  · simp only [calculateAllLevels]
    cases hprev : listMax? ((bars.filter (isValidRTHBar simDay)).map (fun b => b.day)) with
    | none =>
      rw [listMax?_eq_none_iff, List.map_eq_nil_iff, List.filter_eq_nil_iff] at hprev
      simp only []
      constructor
      · intro _ b hb
        simpa using hprev b hb
      · intro _; trivial
    | some d =>
      rcases pdh_branch_some hprev with ⟨b, hbars, hpred, hvalid⟩
      apply iff_of_false
      · simp only []
        intro hnone
        rw [listMax?_eq_none_iff, List.map_eq_nil_iff, List.filter_eq_nil_iff] at hnone
        exact hnone b hbars (by simp [hpred])
      · intro hall
        have := hall b hbars
        rw [hvalid] at this
        exact Bool.noConfusion this
  · simp only [calculateAllLevels]
    cases hprev : listMax? ((bars.filter (isValidRTHBar simDay)).map (fun b => b.day)) with
    | none =>
      rw [listMax?_eq_none_iff, List.map_eq_nil_iff, List.filter_eq_nil_iff] at hprev
      simp only []
      constructor
      · intro _ b hb
        simpa using hprev b hb
      · intro _; trivial
    | some d =>
      rcases pdh_branch_some hprev with ⟨b, hbars, hpred, hvalid⟩
      apply iff_of_false
      · simp only []
        intro hnone
        rw [listMin?_eq_none_iff, List.map_eq_nil_iff, List.filter_eq_nil_iff] at hnone
        exact hnone b hbars (by simp [hpred])
      · intro hall
        have := hall b hbars
        rw [hvalid] at this
        exact Bool.noConfusion this
  · simp only [calculateAllLevels]
    rw [listMax?_eq_none_iff, List.map_eq_nil_iff, List.filter_eq_nil_iff]
    simp
  · simp only [calculateAllLevels]
    rw [listMin?_eq_none_iff, List.map_eq_nil_iff, List.filter_eq_nil_iff]
    simp

/-- Witness for C10 at the empty input and a one-bar input whose bar is a
valid pre-market bar of the simulation day. -/
theorem c10_level_calculator_total_witness :
    calculateAllLevels [] 0 = emptyLevels ∧
    (calculateAllLevels [⟨0, 15000, 95, 94⟩] 0).pmh ≠ none :=
  ⟨(c10_level_calculator_total [] 0).1 rfl,
    fun h => by
      have := ((c10_level_calculator_total [⟨0, 15000, 95, 94⟩] 0).2.2.2.1).mp h
      simpa [isValidPMBar, inPMsec] using this ⟨0, 15000, 95, 94⟩ (by simp)⟩

/-- Claim C5, counterexample: with the shipped BREAK_CONFIRMATION_CANDLES
of 2 and a 200-EMA of 50, two consecutive bars closing at 104 and 105 -
every close in the history strictly above the level 100, so no strict
crossing ever happens - still make check_for_break signal an up break of
pdh on the second bar.  Mere persistence above the level does signal. -/
theorem c5_counterexample :
    (checkForBreak 2 bdInit c5Bar1 c5Levels (some 50)).1 = none ∧
    (checkForBreak 2 (checkForBreak 2 bdInit c5Bar1 c5Levels (some 50)).2 c5Bar2 c5Levels
        (some 50)).1 = some ⟨BreakDir.up, LName.pdh, 100, c5Bar2⟩ ∧
    100 < c5Bar1.close ∧ 100 < c5Bar2.close := by
  refine ⟨by decide, by decide, by norm_num [c5Bar1], by norm_num [c5Bar2]⟩

/-- Claim C5, amended: check_for_break signals an up break of the lowest
watched resistance exactly when the current close is strictly above that
resistance, the consecutive-close counter (restarted whenever the counted
direction changes or price returns inside the range) reaches
BREAK_CONFIRMATION_CANDLES with this bar, and the close is above a
nonzero 200-EMA; no preceding close at or below the level is required,
so persistence above the level can signal.  Symmetrically a down break
of the highest watched support is signalled exactly when additionally the
close is not simultaneously above the lowest resistance (the up branch
of the counter update takes priority). -/
theorem c5_break_counting_amended (N : ℕ) (st : BDState) (bar : Bar) (lv : Levels)
    (ema200 : Option ℚ) (hN : 1 ≤ N) (hwf : bdWellFormed st) :
    ((∃ ev, (checkForBreak N st bar lv ema200).1 = some ev ∧ ev.dir = BreakDir.up) ↔
      ((∃ p, minValPair (resistPairs lv) = some p ∧ bar.close > p.2) ∧
        N ≤ upCountAfter st ∧
        (∃ v, ema200 = some v ∧ v ≠ 0 ∧ bar.close > v))) ∧
    ((∃ ev, (checkForBreak N st bar lv ema200).1 = some ev ∧ ev.dir = BreakDir.down) ↔
      ((¬∃ p, minValPair (resistPairs lv) = some p ∧ bar.close > p.2) ∧
        (∃ q, maxValPair (supportPairs lv) = some q ∧ bar.close < q.2) ∧
        N ≤ downCountAfter st ∧
        (∃ v, ema200 = some v ∧ v ≠ 0 ∧ bar.close < v))) := by
  constructor
  · simp only [checkForBreak]
    rcases hr : minValPair (resistPairs lv) with _ | p
    · rcases hs : maxValPair (supportPairs lv) with _ | q <;>
        rcases hema : ema200 with _ | v <;>
        simp_all <;>
        (try (intro x hx; repeat' split at hx); all_goals (try (injection hx with hx; subst hx)); all_goals (try simp_all); all_goals (try simp); all_goals (try omega))
    · simp only [hr]
      by_cases hcp : bar.close > p.2
      · simp [hcp]
        rcases hema : ema200 with _ | v
        · simp_all <;> (try (intro x hx; repeat' split at hx); all_goals (try (injection hx with hx; subst hx)); all_goals (try simp_all); all_goals (try simp); all_goals (try omega))
        · by_cases hv0 : v = 0
          · simp_all <;> (try (intro x hx; repeat' split at hx); all_goals (try (injection hx with hx; subst hx)); all_goals (try simp_all); all_goals (try simp); all_goals (try omega))
          · by_cases hcv : bar.close > v
            · rw [upCountAfter_eq]
              by_cases hcnt : N ≤ upCountAfter st
              · simp_all
              · simp_all
                rw [if_neg (not_le.mpr hcnt), if_neg (fun h => lt_asymm hcv h.2)]
                simp
                omega
            · simp_all
              rw [if_neg (fun h => absurd h.2 (not_lt.mpr hcv))]
              have hbelow : (if st.lastBreakType = some BreakDir.up then st else bdReset).breakBelowConfirmations = 0 := by
                split
                · rename_i hlt2
                  simp only [bdWellFormed, hlt2] at hwf
                  exact hwf
                · rfl
              rw [if_neg (fun h => by rw [hbelow] at h; omega)]
              simp
              exact fun _ => hcv
      · apply iff_of_false
        · rintro ⟨ev, hev, hdir⟩
          repeat' split at hev
          all_goals (try (injection hev with hev; subst hev))
          all_goals (try simp_all [bdWellFormed, bdReset])
          all_goals (try omega)
          all_goals linarith
        · rintro ⟨⟨p2, hp2, hgt⟩, _, _⟩
          injection hp2 with h
          rw [← h] at hgt
          exact hcp hgt
  · simp only [checkForBreak]
    rcases hs : maxValPair (supportPairs lv) with _ | q
    · rcases hr : minValPair (resistPairs lv) with _ | p <;>
        rcases hema : ema200 with _ | v <;>
        simp_all <;>
        (try (intro x hx; repeat' split at hx); all_goals (try (injection hx with hx; subst hx)); all_goals (try simp_all); all_goals (try simp); all_goals (try omega))
    · by_cases hcq : bar.close < q.2
      · rcases hr : minValPair (resistPairs lv) with _ | p
        · simp only [hr, hs]
          rcases hema : ema200 with _ | v
          · simp_all <;> (try (intro x hx; repeat' split at hx); all_goals (try (injection hx with hx; subst hx)); all_goals (try simp_all); all_goals (try simp); all_goals (try omega))
          · by_cases hv0 : v = 0
            · simp_all <;> (try (intro x hx; repeat' split at hx); all_goals (try (injection hx with hx; subst hx)); all_goals (try simp_all); all_goals (try simp); all_goals (try omega))
            · by_cases hcv : bar.close < v
              · simp_all
                rw [downCountAfter_eq]
                rw [if_neg (fun h => lt_asymm hcv h.2)]
                by_cases hcnt : N ≤ downCountAfter st
                · rw [if_pos hcnt]
                  simp [hcnt]
                · rw [if_neg hcnt]
                  simp [hcnt]
              · simp_all
                have habove : (if st.lastBreakType = some BreakDir.down then st else bdReset).breakAboveConfirmations = 0 := by
                  split
                  · rename_i h2
                    simp only [bdWellFormed, h2] at hwf
                    exact hwf
                  · rfl
                rw [if_neg (fun h => by rw [habove] at h; omega)]
                rw [downCountAfter_eq]
                rw [if_neg (fun h => absurd h.2 (not_lt.mpr hcv))]
                simp
                exact fun _ => hcv
        · by_cases hcp2 : bar.close > p.2
          · apply iff_of_false
            · rintro ⟨ev, hev, hdir⟩
              repeat' split at hev
              all_goals (try (injection hev with hev; subst hev))
              all_goals (try simp_all [bdWellFormed, bdReset])
              all_goals (try omega)
              all_goals linarith
            · rintro ⟨hnab, _, _, _⟩
              exact hnab ⟨p, rfl, hcp2⟩
          · simp only [hr, hs]
            rcases hema : ema200 with _ | v
            · simp_all <;> (try (intro x hx; repeat' split at hx); all_goals (try (injection hx with hx; subst hx)); all_goals (try simp_all); all_goals (try simp); all_goals (try omega))
            · by_cases hv0 : v = 0
              · simp_all <;> (try (intro x hx; repeat' split at hx); all_goals (try (injection hx with hx; subst hx)); all_goals (try simp_all); all_goals (try simp); all_goals (try omega))
              · by_cases hcv : bar.close < v
                · simp_all
                  simp only [if_neg (not_lt.mpr hcp2)]
                  rw [downCountAfter_eq]
                  try rw [if_neg (fun h => lt_asymm hcv h.2)]
                  by_cases hcnt : N ≤ downCountAfter st
                  · rw [if_pos hcnt]
                    simp [hcnt]
                  · rw [if_neg hcnt]
                    simp [hcnt]
                · simp_all
                  simp only [if_neg (not_lt.mpr hcp2)]
                  have habove : (if st.lastBreakType = some BreakDir.down then st else bdReset).breakAboveConfirmations = 0 := by
                    split
                    · rename_i h2
                      simp only [bdWellFormed, h2] at hwf
                      exact hwf
                    · rfl
                  try rw [if_neg (fun h => by rw [habove] at h; omega)]
                  rw [downCountAfter_eq]
                  rw [if_neg (fun h => absurd h.2 (not_lt.mpr hcv))]
                  simp
                  exact fun _ => hcv
      · apply iff_of_false
        · rintro ⟨ev, hev, hdir⟩
          repeat' split at hev
          all_goals (try (injection hev with hev; subst hev))
          all_goals (try simp_all [bdWellFormed, bdReset])
          all_goals (try omega)
          all_goals linarith
        · rintro ⟨_, ⟨q2, hq2, hlt⟩, _, _⟩
          injection hq2 with h
          rw [← h] at hlt
          exact hcq hlt

/-- Witness for the amended C5 at a state that has already counted one
close above the level: the second consecutive close above pdh = 100 with
a 200-EMA of 50 signals an up break. -/
theorem c5_break_counting_amended_witness :
    ∃ ev, (checkForBreak 2 ⟨1, 0, some BreakDir.up, none⟩ c5Bar2 c5Levels (some 50)).1 =
      some ev ∧ ev.dir = BreakDir.up :=
  (c5_break_counting_amended 2 ⟨1, 0, some BreakDir.up, none⟩ c5Bar2 c5Levels (some 50)
      (by norm_num) (by simp [bdWellFormed])).1.mpr
    ⟨⟨(LName.pdh, 100), rfl, by norm_num [c5Bar2]⟩, by simp [upCountAfter],
      ⟨50, rfl, by norm_num, by norm_num [c5Bar2]⟩⟩

/-- Claim C6, evaluated on the code at a failing input: the triggering bar
has body-to-range ratio 9/10, above the MNQ conviction threshold of 7/10,
yet the src BreakDetector needs a second confirmation bar to signal at all,
the event it finally emits carries no immediate_entry or high_conviction
flag, and the projectx driver therefore takes the standard path to
AWAITING_RETEST instead of the immediate-entry fast path into IN_TRADE. -/
theorem c6_conviction_flag_never_emitted :
    convictionCandleBodyRatio "MNQ" = some (7 / 10) ∧
    (convBar2.close - convBar2.opn) / (convBar2.high - convBar2.low) > 7 / 10 ∧
    (checkForBreak 2 bdInit convBar1 c6Levels (some 50)).1 = none ∧
    (checkForBreak 2 c6DetSt convBar2 c6Levels (some 50)).1 = some c6Event ∧
    immediateEntryFlag c6Event = false ∧
    highConvictionFlag c6Event = false ∧
    (stepX c6Cfg c6State c6Input).fsm = FSMState.awaitingRetest ∧
    (stepX c6Cfg c6State c6Input).activeTrade = none := by
  refine ⟨rfl, by norm_num [convBar2], by decide, by decide, rfl, rfl, by decide, by decide⟩

/-- Claim C1: for every input bar sequence (hence at every point of a
replay run, every prefix being such a sequence) at most one position with
status ACTIVE exists for the symbol, in both replay drivers: a position is
opened only by the transition into IN_TRADE, and the active position is
cleared and recorded as CLOSED when the state returns to AWAITING_BREAK. -/
theorem c1_at_most_one_active_position :
    ∀ (cfg : SymCfg) (balance : ℚ) (lv : Levels) (inputs : List BarInput)
      (lastBarOfDay? : Option Bar),
      (activeCount (runDayA cfg balance lv inputs) ≤ 1 ∧
        ClaimInv (runDayA cfg balance lv inputs)) ∧
      (activeCount (runDayX cfg balance lv inputs lastBarOfDay?) ≤ 1 ∧
        ClaimInv (runDayX cfg balance lv inputs lastBarOfDay?)) := by
  intro cfg balance lv inputs lastBar?
  have hA : ClaimInv (runDayA cfg balance lv inputs) :=
    claimInv_foldlA cfg inputs _ (claimInv_init balance lv)
  have hX : ClaimInv (runDayX cfg balance lv inputs lastBar?) :=
    claimInv_eodCloseX _ _ _ (claimInv_foldlX cfg inputs _ (claimInv_init balance lv))
  exact ⟨⟨activeCount_le_one_of_claimInv _ hA, hA⟩,
    ⟨activeCount_le_one_of_claimInv _ hX, hX⟩⟩

/-- Claim C2: while IN_TRADE, a bar that breaches both the stop and the
target closes the position with exit reason StopLoss at the stop price,
never TakeProfit, identically in both replay drivers (both check the stop
first).  The projectx driver additionally needs a nonzero stop because its
`if exit_price:` truthiness test skips a 0.0 trigger; a trade with stop 0
can never be opened, both entry paths discard a falsy stop price.
Backtester.py only manages positions on morning-session bars, hence the
session hypothesis. -/
theorem c2_stop_precedence_both_drivers :
    ∀ (cfg : SymCfg) (s : DrvState) (inp : BarInput) (t : Trade),
      isMorningTime inp.tod = true →
      s.fsm = FSMState.inTrade →
      s.activeTrade = some t →
      t.stopLoss ≠ 0 →
      ((t.side = Side.buy ∧ inp.bar.low ≤ t.stopLoss ∧ inp.bar.high ≥ t.takeProfit) ∨
        (t.side = Side.sell ∧ inp.bar.high ≥ t.stopLoss ∧ inp.bar.low ≤ t.takeProfit)) →
      (∃ tA, (stepA cfg s inp).trades = s.trades ++ [tA] ∧
        tA.exitReason = some ExitReason.stopLoss ∧ tA.exitPrice = some t.stopLoss ∧
        (stepA cfg s inp).activeTrade = none ∧ (stepA cfg s inp).fsm = FSMState.awaitingBreak) ∧
      (∃ tX, (stepX cfg s inp).trades = s.trades ++ [tX] ∧
        tX.exitReason = some ExitReason.stopLoss ∧ tX.exitPrice = some t.stopLoss ∧
        (stepX cfg s inp).activeTrade = none ∧ (stepX cfg s inp).fsm = FSMState.awaitingBreak) := by
  intro cfg s inp t hm hfsm hact hsl hbr
  constructor
  · rcases hbr with ⟨hside, hlow, hhigh⟩ | ⟨hside, hhigh, hlow⟩
    · have hred : stepA cfg s inp = closeTradeA cfg s t inp.bar ExitReason.stopLoss := by
        simp [stepA, hm, hfsm, hact, hside, hlow]
      rw [hred]
      exact ⟨_, rfl, rfl, rfl, rfl, rfl⟩
    · have hred : stepA cfg s inp = closeTradeA cfg s t inp.bar ExitReason.stopLoss := by
        simp [stepA, hm, hfsm, hact, hside, hhigh]
      rw [hred]
      exact ⟨_, rfl, rfl, rfl, rfl, rfl⟩
  · rcases hbr with ⟨hside, hlow, hhigh⟩ | ⟨hside, hhigh, hlow⟩
    · have hred : stepX cfg s inp = closeTradeX cfg s t inp.bar ExitReason.stopLoss := by
        simp [stepX, hm, hfsm, hact, hside, hlow, hsl]
      rw [hred]
      exact ⟨_, rfl, rfl, rfl, rfl, rfl⟩
    · have hred : stepX cfg s inp = closeTradeX cfg s t inp.bar ExitReason.stopLoss := by
        simp [stepX, hm, hfsm, hact, hside]
        rw [if_pos hhigh]
        simp [hsl]
      rw [hred]
      exact ⟨_, rfl, rfl, rfl, rfl, rfl⟩

/-- Witness for C2: on the double-breach bar both drivers close the
witness trade as a stop loss at 90. -/
theorem c2_stop_precedence_both_drivers_witness :
    (∃ tA, (stepA c2Cfg c2State c2Input).trades = c2State.trades ++ [tA] ∧
      tA.exitReason = some ExitReason.stopLoss ∧ tA.exitPrice = some c2TradeW.stopLoss ∧
      (stepA c2Cfg c2State c2Input).activeTrade = none ∧
      (stepA c2Cfg c2State c2Input).fsm = FSMState.awaitingBreak) ∧
    (∃ tX, (stepX c2Cfg c2State c2Input).trades = c2State.trades ++ [tX] ∧
      tX.exitReason = some ExitReason.stopLoss ∧ tX.exitPrice = some c2TradeW.stopLoss ∧
      (stepX c2Cfg c2State c2Input).activeTrade = none ∧
      (stepX c2Cfg c2State c2Input).fsm = FSMState.awaitingBreak) :=
  c2_stop_precedence_both_drivers c2Cfg c2State c2Input c2TradeW (by decide) rfl rfl
    (by norm_num [c2TradeW])
    (Or.inl ⟨rfl, by norm_num [c2TradeW, c2Input], by norm_num [c2TradeW, c2Input]⟩)

/-- Claim C3: in both replay drivers, whenever a standard break is
accepted (the step from AWAITING_BREAK lands in AWAITING_RETEST) the
retest deadline is set to the break bar timestamp plus
RETEST_TIMEOUT_MINUTES; and a bar arriving in AWAITING_RETEST strictly
after the deadline returns the machine to AWAITING_BREAK with the trade
log and the (empty) active-position slot unchanged - zero trades for the
abandoned setup.  The pending break event is simply no longer consulted:
AWAITING_BREAK never reads it and the next break overwrites it. -/
theorem c3_retest_deadline_and_timeout :
    (∀ (cfg : SymCfg) (s : DrvState) (inp : BarInput),
      isMorningTime inp.tod = true →
      s.fsm = FSMState.awaitingBreak →
      ((stepA cfg s inp).fsm = FSMState.awaitingRetest →
        (stepA cfg s inp).retestTimeoutStamp = inp.bar.name + cfg.retestTimeoutMinutes)) ∧
    (∀ (cfg : SymCfg) (s : DrvState) (inp : BarInput),
      isMorningTime inp.tod = true →
      s.fsm = FSMState.awaitingBreak →
      ((stepX cfg s inp).fsm = FSMState.awaitingRetest →
        (stepX cfg s inp).retestTimeoutStamp = inp.bar.name + cfg.retestTimeoutMinutes)) ∧
    (∀ (cfg : SymCfg) (s : DrvState) (inp : BarInput),
      isMorningTime inp.tod = true →
      s.fsm = FSMState.awaitingRetest →
      inp.bar.name > s.retestTimeoutStamp →
      (stepA cfg s inp).fsm = FSMState.awaitingBreak ∧
      (stepA cfg s inp).trades = s.trades ∧
      (stepA cfg s inp).activeTrade = s.activeTrade) ∧
    (∀ (cfg : SymCfg) (s : DrvState) (inp : BarInput),
      isMorningTime inp.tod = true →
      s.fsm = FSMState.awaitingRetest →
      inp.bar.name > s.retestTimeoutStamp →
      (stepX cfg s inp).fsm = FSMState.awaitingBreak ∧
      (stepX cfg s inp).trades = s.trades ∧
      (stepX cfg s inp).activeTrade = s.activeTrade) := by
  refine ⟨?_, ?_, ?_, ?_⟩
  · intro cfg s inp hm hfsm
    simp only [stepA, hm, hfsm]
    simp only [Bool.not_true, Bool.false_eq_true, if_false]
    repeat' split
    all_goals (intro h2; simp_all)
  · intro cfg s inp hm hfsm
    simp only [stepX, hm, hfsm]
    simp only [Bool.not_true, Bool.and_false, Bool.false_eq_true, if_false]
    repeat' split
    all_goals (intro h2; simp_all)
  · intro cfg s inp hm hfsm htime
    refine ⟨?_, ?_, ?_⟩ <;> simp [stepA, hm, hfsm, htime]
  · intro cfg s inp hm hfsm htime
    refine ⟨?_, ?_, ?_⟩ <;> simp [stepX, hm, hfsm, htime]

/-- Witness for C3: the accepted break at timestamp 7 sets the deadline
to 67 in both drivers, and the bar at timestamp 11 after the deadline 10
resets both drivers to AWAITING_BREAK with no trade recorded. -/
theorem c3_retest_deadline_and_timeout_witness :
    (stepA c3Cfg c3StateB c3InputB).retestTimeoutStamp =
      c3InputB.bar.name + c3Cfg.retestTimeoutMinutes ∧
    (stepX c3Cfg c3StateB c3InputB).retestTimeoutStamp =
      c3InputB.bar.name + c3Cfg.retestTimeoutMinutes ∧
    (stepA c3Cfg c3StateR c3InputR).fsm = FSMState.awaitingBreak ∧
    (stepA c3Cfg c3StateR c3InputR).trades = c3StateR.trades ∧
    (stepX c3Cfg c3StateR c3InputR).fsm = FSMState.awaitingBreak ∧
    (stepX c3Cfg c3StateR c3InputR).trades = c3StateR.trades :=
  ⟨c3_retest_deadline_and_timeout.1 c3Cfg c3StateB c3InputB (by decide) rfl (by decide),
    c3_retest_deadline_and_timeout.2.1 c3Cfg c3StateB c3InputB (by decide) rfl (by decide),
    (c3_retest_deadline_and_timeout.2.2.1 c3Cfg c3StateR c3InputR (by decide) rfl
      (by decide)).1,
    (c3_retest_deadline_and_timeout.2.2.1 c3Cfg c3StateR c3InputR (by decide) rfl
      (by decide)).2.1,
    (c3_retest_deadline_and_timeout.2.2.2 c3Cfg c3StateR c3InputR (by decide) rfl
      (by decide)).1,
    (c3_retest_deadline_and_timeout.2.2.2 c3Cfg c3StateR c3InputR (by decide) rfl
      (by decide)).2.1⟩

/-- Claim C4, evaluated on the code at the failing input: the projectx
driver's end-of-day pass closes the still-open position with exit reason
EOD at the session-end bar close and records it, but backtester.py has no
end-of-day handling at all - the same bar leaves the position open with
an empty trade log, and the next day's reset (backtester.py lines
112-114) silently discards the position without ever recording it. -/
theorem c4_eod_close_missing_in_backtester :
    (∃ tE, (eodCloseX c4Cfg c4State (some c4LastBar)).trades = [tE] ∧
      tE.exitReason = some ExitReason.eod ∧ tE.exitPrice = some c4LastBar.close ∧
      tE.status = TradeStatus.closed) ∧
    (eodCloseX c4Cfg c4State (some c4LastBar)).activeTrade = none ∧
    (eodCloseX c4Cfg c4State (some c4LastBar)).fsm = FSMState.awaitingBreak ∧
    (stepA c4Cfg c4State c4Input).trades = [] ∧
    (stepA c4Cfg c4State c4Input).activeTrade = some c4TradeW ∧
    (dailyResetA (stepA c4Cfg c4State c4Input) emptyLevels).activeTrade = none ∧
    (dailyResetA (stepA c4Cfg c4State c4Input) emptyLevels).trades = [] := by
  refine ⟨⟨_, rfl, by decide, by decide, by decide⟩,
    by decide, by decide, by decide, by decide, by decide, by decide⟩

/-- Claim C9: in the backtester.py entry pipeline, a candidate trade whose
entry price lies farther from the broken level than the configured maximum
slippage is rejected as a normal outcome: no position is opened, the trade
log is untouched and the machine returns to AWAITING_BREAK.  The maximum
is the cfg field standing for strategy_config.MAX_ENTRY_SLIPPAGE_POINTS,
which backtester.py line 292 reads but src/config/strategy_config.py never
defines; the field is modelled from the spec as per-symbol required
configuration. -/
theorem c9_slippage_rejection :
    ∀ (cfg : SymCfg) (s : DrvState) (inp : BarInput) (rc : RContext) (slPrice : ℚ),
      isMorningTime inp.tod = true →
      s.fsm = FSMState.awaitingConfirmation →
      s.retestContext = some rc →
      (match rc.breakEvent.dir with
        | BreakDir.up => decide (inp.bar.close > inp.bar.opn)
        | BreakDir.down => decide (inp.bar.close < inp.bar.opn)) = true →
      (validateSignal cfg.minBreakoutVolume cfg.minDistanceFromLevel
        (match rc.breakEvent.dir with | BreakDir.up => Side.buy | BreakDir.down => Side.sell)
        rc.breakEvent.candle inp.bar s.levels).1 = true →
      calculateStopFromCandle
        (match rc.breakEvent.dir with | BreakDir.up => Side.buy | BreakDir.down => Side.sell)
        (some rc.pivotCandle) cfg.symbol = some slPrice →
      slPrice ≠ 0 →
      (match rc.breakEvent.dir with
        | BreakDir.up => inp.bar.close - rc.breakEvent.level
        | BreakDir.down => rc.breakEvent.level - inp.bar.close) > cfg.maxEntrySlippagePoints →
      (stepA cfg s inp).fsm = FSMState.awaitingBreak ∧
      (stepA cfg s inp).activeTrade = s.activeTrade ∧
      (stepA cfg s inp).trades = s.trades ∧
      (stepA cfg s inp).retestContext = none := by
  intro cfg s inp rc slPrice hm hfsm hctx hconf hvalid hstop hsl hslip
  cases hdir : rc.breakEvent.dir <;>
    (rw [hdir] at hconf hvalid hstop hslip
     simp only [decide_eq_true_eq] at hconf
     have hred : stepA cfg s inp = { s with fsm := FSMState.awaitingBreak, retestContext := none } := by
       simp [stepA, hm, hfsm, hctx, hdir, hconf, hvalid, hstop, hsl, hslip]
     rw [hred])
  all_goals exact ⟨rfl, rfl, rfl, rfl⟩

/-- Witness for C9: the chased entry at 111 against the level 100 exceeds
the 5-point cap and is rejected back to AWAITING_BREAK with nothing opened. -/
theorem c9_slippage_rejection_witness :
    (stepA c9Cfg c9State c9Input).fsm = FSMState.awaitingBreak ∧
    (stepA c9Cfg c9State c9Input).activeTrade = c9State.activeTrade ∧
    (stepA c9Cfg c9State c9Input).trades = c9State.trades ∧
    (stepA c9Cfg c9State c9Input).retestContext = none :=
  c9_slippage_rejection c9Cfg c9State c9Input c9Context 75 (by decide) rfl rfl
    (by decide)
    (by norm_num [validateSignal, checkLevelConfluence, levelPairs, c9Context, c9Cfg, c9State, c9Input, initState])
    (by norm_num [calculateStopFromCandle, stopLossBufferPoints, c9Context, c9Cfg])
    (by norm_num)
    (by norm_num [c9Context, c9Cfg, c9Input])
